import Mathlib

/-!
Shallow embedding of the review-trust analysis core of the maps-review-analyzer
extension: the `PatternDetector` (src/content/core/pattern-detector.js) and the
`ScoreCalculator` (src/content/analyzer/score-calculator.js), together with the
configuration constants they read (src/shared/config.js `ANALYSIS_WEIGHTS`,
src/shared/constants.js `ANALYSIS_CONSTANTS`, `TRUST_SCORE_THRESHOLDS`,
`SEVERITY_LEVELS`, `PATTERN_TYPES`).

JavaScript numbers are modelled by exact rationals; the single use of
`Math.sqrt` (rating naturalness) is modelled by `Real.sqrt` over the reals.
-/

namespace MapsReview

/-- Star-rating histogram: count of reviews per star value 1..5
(the `ratings` object of a `ReviewDataset`). -/
structure Ratings where
  r1 : ℚ
  r2 : ℚ
  r3 : ℚ
  r4 : ℚ
  r5 : ℚ
deriving DecidableEq, Repr

/-- One record of `recentReviews`. -/
structure Review where
  text : String
  textLength : ℚ
  dateText : String
  hasPhotos : Bool
deriving DecidableEq, Repr

/-- The `reviewData` input of the core. -/
structure ReviewDataset where
  ratings : Ratings
  totalReviews : ℚ
  recentReviews : List Review
deriving DecidableEq, Repr

/-- The `settings` object consumed by the core. -/
structure Settings where
  analysisMode : String
  minimumReviewsForAnalysis : ℚ
deriving DecidableEq, Repr

/-- The fixed-key suspicion-factor map produced by `detectAllPatterns`. -/
structure SuspicionFactors where
  polarizedRatings : ℚ
  burstPosting : ℚ
  shortReviews : ℚ
  duplicatePatterns : ℚ
  newAccounts : ℚ
deriving DecidableEq, Repr

/-- A detected suspicious-pattern record (`type` and `severity` fields; the
free-text `description` and the diagnostic `metadata` play no role in the
scoring pipeline and are omitted). -/
structure SuspiciousPattern where
  ptype : String
  severity : String
deriving DecidableEq, Repr

/-! Text utilities backing `calculateTextSimilarity`:
`text.toLowerCase().split(/\s+/)` turned into a token set. -/

/-- Character class of the JavaScript regular-expression whitespace `\s`
(ASCII part; the reviews handled here contain no exotic Unicode spaces). -/
def isJsWhitespace (c : Char) : Bool :=
  c = ' ' || c = '\t' || c = '\n' || c = '\r' || c = '\x0b' || c = '\x0c'

/-- Splitting on the regex `\s+` : maximal whitespace runs are separators,
empty fragments appear at the ends when the string starts or ends with
whitespace, and the empty string yields the single fragment `""`. The
`skipping` flag records that the previous character belonged to the current
whitespace run, so that a run contributes a single separator. -/
def wsSplitF (skipping : Bool) : List Char → List (List Char)
  | [] => [[]]
  | c :: cs =>
    if isJsWhitespace c then
      if skipping then wsSplitF true cs
      else [] :: wsSplitF true cs
    else
      match wsSplitF false cs with
      | [] => [[c]]
      | t :: ts => (c :: t) :: ts

/-- Fragments of `s.split(/\s+/)` for a character list. -/
def wsSplit (l : List Char) : List (List Char) :=
  wsSplitF false l

/-- The token list of `text.toLowerCase().split(/\s+/)` (lower-casing is
per character, as `String.toLowerCase` acts on the reviews handled here). -/
def jsTokens (s : String) : List String :=
  (wsSplit (s.data.map Char.toLower)).map (fun cs => String.mk cs)

/-- Jaccard similarity of two texts over lower-cased whitespace-separated
token sets (`calculateTextSimilarity` in pattern-detector.js): 0 when either
text is empty or falsy, otherwise `|intersection| / |union|` guarded by a
positive-union-size check. -/
def calculateTextSimilarity (text1 text2 : String) : ℚ :=
  if text1 = "" || text2 = "" then 0
  else
    let words1 := (jsTokens text1).toFinset
    let words2 := (jsTokens text2).toFinset
    let inter := words1 ∩ words2
    let uni := words1 ∪ words2
    if 0 < uni.card then (inter.card : ℚ) / (uni.card : ℚ) else 0

/-! Pattern detectors. Each detector of the source returns
`{detected:false}` or `{detected:true, score, pattern}`; modelled as
`Option (score, pattern)`, with `none` for not detected. -/

/-- Is needle a prefix of hay as character lists. -/
def listStartsWith : List Char → List Char → Bool
  | [], _ => true
  | _ :: _, [] => false
  | a :: as, b :: bs => a = b && listStartsWith as bs

/-- Substring containment of character lists (JavaScript `String.includes`). -/
def containsSub (needle : List Char) : List Char → Bool
  | [] => needle.isEmpty
  | c :: t => listStartsWith needle (c :: t) || containsSub needle t

/-- JavaScript `hay.includes(needle)`. -/
def jsIncludes (hay needle : String) : Bool :=
  containsSub needle.data hay.data

/-- The hardcoded keyword list of `getRecentDateKeywords`. -/
def recentDateKeywords : List String :=
  ["日前", "週間前", "時間前", "分前",
   "day ago", "week ago", "hour ago", "minute ago",
   "days ago", "weeks ago", "hours ago", "minutes ago"]

/-- The `POLARIZED_THRESHOLDS[analysisMode] || POLARIZED_THRESHOLDS.standard`
lookup: strict 0.6, standard 0.7, lenient 0.8, anything else falls back to
the standard 0.7. -/
def polarizedThreshold (mode : String) : ℚ :=
  if mode = "strict" then 0.6
  else if mode = "standard" then 0.7
  else if mode = "lenient" then 0.8
  else 0.7

/-- The `settings.minimumReviewsForAnalysis || 5` read: a zero (falsy) value
falls back to the default 5. -/
def minReviewsOf (s : Settings) : ℚ :=
  if s.minimumReviewsForAnalysis = 0 then 5 else s.minimumReviewsForAnalysis

/-- Polarized-ratings heuristic (`detectPolarizedRatings`): skip when
`totalReviews < minimumReviewsForAnalysis` or `totalReviews == 0`; detected
when `extremeRatio > threshold(mode)` and `middleRatio < 0.2`; score
`min(extremeRatio * 100 * 1.0, 90)`, severity high. -/
def detectPolarizedRatings (rd : ReviewDataset) (s : Settings) :
    Option (ℚ × SuspiciousPattern) :=
  if rd.totalReviews < minReviewsOf s then none
  else
    let extremeRatings := rd.ratings.r1 + rd.ratings.r5
    let middleRatings := rd.ratings.r2 + rd.ratings.r3 + rd.ratings.r4
    if rd.totalReviews = 0 then none
    else
      let extremeRatio := extremeRatings / rd.totalReviews
      let middleRatio := middleRatings / rd.totalReviews
      let threshold := polarizedThreshold s.analysisMode
      if extremeRatio > threshold ∧ middleRatio < 0.2 then
        some (min (extremeRatio * 100 * 1) 90,
          { ptype := "polarized_ratings", severity := "high" })
      else none

/-- Burst-posting heuristic (`detectBurstPosting`): count recent-keyword
reviews; require `recentCount > 5`; `burstRatio = recentCount /
max(totalReviews, recentReviews.length)`; detected when `burstRatio > 0.3`;
score `min(burstRatio * 100 * 0.8, 80)`, severity medium. -/
def detectBurstPosting (rd : ReviewDataset) : Option (ℚ × SuspiciousPattern) :=
  if rd.recentReviews = [] then none
  else
    let recentCount := (rd.recentReviews.filter
      (fun r => recentDateKeywords.any (fun kw => jsIncludes r.dateText kw))).length
    if 5 < recentCount then
      let totalReviews := max rd.totalReviews (rd.recentReviews.length : ℚ)
      let burstRatio := (recentCount : ℚ) / totalReviews
      if burstRatio > 0.3 then
        some (min (burstRatio * 100 * 0.8) 80,
          { ptype := "burst_posting", severity := "medium" })
      else none
    else none

/-- Short-review heuristic (`detectShortReviews`): ratio of reviews with
`0 < textLength < SHORT_REVIEW_LENGTH(10)`; detected when the ratio exceeds
0.4; score `min(ratio * 100 * 0.6, 60)`, severity low. -/
def detectShortReviews (rd : ReviewDataset) : Option (ℚ × SuspiciousPattern) :=
  if rd.recentReviews = [] then none
  else
    let shortCount := (rd.recentReviews.filter
      (fun r => decide (0 < r.textLength ∧ r.textLength < 10))).length
    let shortRatio := (shortCount : ℚ) / (rd.recentReviews.length : ℚ)
    if shortRatio > 0.4 then
      some (min (shortRatio * 100 * 0.6) 60,
        { ptype := "short_reviews", severity := "low" })
    else none

/-- All ordered pairs (i < j) of texts with Jaccard similarity above the
0.8 threshold (`findSimilarTexts`). -/
def findSimilarTexts : List String → List (String × String × ℚ)
  | [] => []
  | t :: rest =>
      rest.filterMap (fun u =>
        let similarity := calculateTextSimilarity t u
        if similarity > 0.8 then some (t, u, similarity) else none)
      ++ findSimilarTexts rest

/-- Duplicate-pattern heuristic (`detectDuplicatePatterns`): require at least
3 recent reviews and at least 3 texts of length > 5; detected when at least
one similar pair exists; score `min(pairCount * 15 * 1.2, 100)`, severity
high. -/
def detectDuplicatePatterns (rd : ReviewDataset) : Option (ℚ × SuspiciousPattern) :=
  if rd.recentReviews.length < 3 then none
  else
    let reviewTexts := (rd.recentReviews.map (fun r => r.text)).filter
      (fun t => !(t = "") && decide (5 < t.length))
    if reviewTexts.length < 3 then none
    else
      let similarities := findSimilarTexts reviewTexts
      if similarities.length > 0 then
        some (min ((similarities.length : ℚ) * 15 * 1.2) 100,
          { ptype := "duplicate_patterns", severity := "high" })
      else none

/-- New-account heuristic (`detectNewAccounts`): ratio of reviews without
photos and with `0 < textLength < SUSPICIOUS_REVIEW_LENGTH(20)`; detected
when the ratio exceeds 0.3; score `min(ratio * 100 * 0.5, 50)`, severity
medium. -/
def detectNewAccounts (rd : ReviewDataset) : Option (ℚ × SuspiciousPattern) :=
  if rd.recentReviews = [] then none
  else
    let suspiciousCount := (rd.recentReviews.filter
      (fun r => !r.hasPhotos && decide (0 < r.textLength ∧ r.textLength < 20))).length
    let suspiciousRatio := (suspiciousCount : ℚ) / (rd.recentReviews.length : ℚ)
    if suspiciousRatio > 0.3 then
      some (min (suspiciousRatio * 100 * 0.5) 50,
        { ptype := "new_accounts", severity := "medium" })
    else none

/-- Result of `detectAllPatterns`. -/
structure DetectionResult where
  suspicionFactors : SuspicionFactors
  suspiciousPatterns : List SuspiciousPattern
deriving DecidableEq, Repr

/-- The orchestrating `detectAllPatterns`: each factor is the detector score
when detected and 0 otherwise, and the pattern records of detected heuristics
are collected in the fixed evaluation order polarized, burst, short,
duplicate, newAccounts. -/
def detectAllPatterns (rd : ReviewDataset) (s : Settings) : DetectionResult :=
  let polarized := detectPolarizedRatings rd s
  let burst := detectBurstPosting rd
  let shortR := detectShortReviews rd
  let duplicates := detectDuplicatePatterns rd
  let newAccounts := detectNewAccounts rd
  { suspicionFactors :=
      { polarizedRatings := (polarized.map Prod.fst).getD 0
        burstPosting := (burst.map Prod.fst).getD 0
        shortReviews := (shortR.map Prod.fst).getD 0
        duplicatePatterns := (duplicates.map Prod.fst).getD 0
        newAccounts := (newAccounts.map Prod.fst).getD 0 }
    suspiciousPatterns :=
      [polarized, burst, shortR, duplicates, newAccounts].filterMap
        (fun o => o.map Prod.snd) }

/-! ScoreCalculator (src/content/analyzer/score-calculator.js). -/

/-- Weighted suspicion total converted to a trust score
(`calculateBaseScore`): `100 - Σ factor * weight`, with the configured
`ANALYSIS_WEIGHTS` weights polarizedRatings 1.0, burstPosting 0.8,
shortReviews 0.6, duplicatePatterns 1.2, newAccounts 0.5. -/
def calculateBaseScore (f : SuspicionFactors) : ℚ :=
  100 - (f.polarizedRatings * 1 + f.burstPosting * 0.8 + f.shortReviews * 0.6
    + f.duplicatePatterns * 1.2 + f.newAccounts * 0.5)

/-- Review-count adjustment (`adjustForReviewCount`), with the source's branch
order: `totalReviews < 10` is tested first and returns `score * 0.9`, making
the following `totalReviews < 5` branch (`score * 0.8`) unreachable; then
`totalReviews > 100` gives `min(score * 1.05, 100)`; otherwise unchanged. -/
def adjustForReviewCount (score : ℚ) (rd : ReviewDataset) : ℚ :=
  if rd.totalReviews < 10 then score * 0.9
  else if rd.totalReviews < 5 then score * 0.8
  else if rd.totalReviews > 100 then min (score * 1.05) 100
  else score

/-- Pattern-severity adjustment (`adjustForPatternSeverity`): each high
severity pattern subtracts 5, each medium severity pattern subtracts 2, low
severity patterns are unadjusted. -/
def adjustForPatternSeverity (score : ℚ) (pats : List SuspiciousPattern) : ℚ :=
  score + (pats.map (fun p =>
    if p.severity = "high" then (-5 : ℚ)
    else if p.severity = "medium" then -2
    else 0)).sum

/-- Rating-distribution naturalness (`calculateRatingNaturalness`): 0 when
`totalReviews == 0`, otherwise `max(0, 1 - sqrt(Σ (ratio_i - ideal_i)^2))`
against the ideal distribution `{1:0.05, 2:0.05, 3:0.15, 4:0.35, 5:0.4}`. -/
noncomputable def calculateRatingNaturalness (ratings : Ratings) (totalReviews : ℚ) : ℝ :=
  if totalReviews = 0 then 0
  else
    let d : ℚ :=
      |ratings.r1 / totalReviews - 0.05| ^ 2 + |ratings.r2 / totalReviews - 0.05| ^ 2
      + |ratings.r3 / totalReviews - 0.15| ^ 2 + |ratings.r4 / totalReviews - 0.35| ^ 2
      + |ratings.r5 / totalReviews - 0.4| ^ 2
    max 0 (1 - Real.sqrt (d : ℝ))

open Classical in
/-- Naturalness adjustment (`adjustForRatingNaturalness`): skipped when
`totalReviews < 5`; naturalness above 0.8 gives `min(score * 1.03, 100)`,
below 0.3 gives `score * 0.95`, otherwise unchanged. -/
noncomputable def adjustForRatingNaturalness (score : ℚ) (rd : ReviewDataset) : ℚ :=
  if rd.totalReviews < 5 then score
  else
    let naturalness := calculateRatingNaturalness rd.ratings rd.totalReviews
    if naturalness > 0.8 then min (score * 1.03) 100
    else if naturalness < 0.3 then score * 0.95
    else score

/-- Analysis-mode adjustment (`adjustForAnalysisMode`): the mode read is
`settings.analysisMode || "standard"`; strict multiplies by 0.95, lenient by
1.05 capped at 100, anything else (standard included) is unchanged. -/
def adjustForAnalysisMode (score : ℚ) (s : Settings) : ℚ :=
  let mode := if s.analysisMode = "" then "standard" else s.analysisMode
  if mode = "strict" then score * 0.95
  else if mode = "lenient" then min (score * 1.05) 100
  else score

/-- The fixed adjustment pipeline (`applyAdjustments`): review count, then
pattern severity, then rating naturalness, then analysis mode. -/
noncomputable def applyAdjustments (baseScore : ℚ) (pats : List SuspiciousPattern)
    (rd : ReviewDataset) (s : Settings) : ℚ :=
  adjustForAnalysisMode
    (adjustForRatingNaturalness
      (adjustForPatternSeverity
        (adjustForReviewCount baseScore rd) pats) rd) s

/-- Trust level from a score (`determineTrustLevel`) with the
`TRUST_SCORE_THRESHOLDS` HIGH 80, MEDIUM 60, LOW 40. -/
def determineTrustLevel (score : ℚ) : String :=
  if score ≥ 80 then "high"
  else if score ≥ 60 then "medium"
  else if score ≥ 40 then "low"
  else "very_low"

/-- The score and level fields of the `calculateTrustScore` output (the
narrative `details` and the diagnostic `breakdown` play no role in the
claims). -/
structure AnalysisResult where
  score : ℤ
  level : String
deriving DecidableEq, Repr

/-- Clamped pre-rounding final score of `calculateTrustScore`:
`Math.max(10, Math.min(100, adjustedScore))`. -/
noncomputable def finalScoreOf (f : SuspicionFactors) (pats : List SuspiciousPattern)
    (rd : ReviewDataset) (s : Settings) : ℚ :=
  max 10 (min 100 (applyAdjustments (calculateBaseScore f) pats rd s))

/-- Top-level `calculateTrustScore`: base score, adjustments, clamp to
[10, 100], then `score = Math.round(finalScore)` and
`level = determineTrustLevel(finalScore)` (the level is derived from the
clamped score before rounding). -/
noncomputable def calculateTrustScore (f : SuspicionFactors)
    (pats : List SuspiciousPattern) (rd : ReviewDataset) (s : Settings) :
    AnalysisResult :=
  let finalScore := finalScoreOf f pats rd s
  { score := round finalScore
    level := determineTrustLevel finalScore }

/-! Shared helper lemmas. -/

/-- The score field of the result is the rounded clamped score. -/
lemma trustScore_score_def (f : SuspicionFactors) (pats : List SuspiciousPattern)
    (rd : ReviewDataset) (s : Settings) :
    (calculateTrustScore f pats rd s).score = round (finalScoreOf f pats rd s) := rfl

/-- The level field of the result is derived from the clamped score before
rounding. -/
lemma trustScore_level_def (f : SuspicionFactors) (pats : List SuspiciousPattern)
    (rd : ReviewDataset) (s : Settings) :
    (calculateTrustScore f pats rd s).level = determineTrustLevel (finalScoreOf f pats rd s) := rfl

/-- Rounding is monotone on the rationals. -/
lemma round_le_round_rat {x y : ℚ} (h : x ≤ y) : round x ≤ round y := by
  rw [round_eq, round_eq]
  exact Int.floor_le_floor (by linarith)

lemma adjustForReviewCount_mono (rd : ReviewDataset) {a b : ℚ} (h : a ≤ b) :
    adjustForReviewCount a rd ≤ adjustForReviewCount b rd := by
  simp only [adjustForReviewCount]
  split_ifs
  · linarith
  · linarith
  · exact min_le_min (by linarith) le_rfl
  · exact h

lemma adjustForPatternSeverity_mono (pats : List SuspiciousPattern) {a b : ℚ}
    (h : a ≤ b) : adjustForPatternSeverity a pats ≤ adjustForPatternSeverity b pats := by
  simp only [adjustForPatternSeverity]
  linarith

lemma adjustForRatingNaturalness_mono (rd : ReviewDataset) {a b : ℚ} (h : a ≤ b) :
    adjustForRatingNaturalness a rd ≤ adjustForRatingNaturalness b rd := by
  simp only [adjustForRatingNaturalness]
  split_ifs
  · exact h
  · exact min_le_min (by linarith) le_rfl
  · linarith
  · exact h

lemma adjustForAnalysisMode_mono (s : Settings) {a b : ℚ} (h : a ≤ b) :
    adjustForAnalysisMode a s ≤ adjustForAnalysisMode b s := by
  simp only [adjustForAnalysisMode]
  split_ifs <;>
    first
      | linarith
      | exact min_le_min (by linarith) le_rfl

lemma applyAdjustments_mono (pats : List SuspiciousPattern) (rd : ReviewDataset)
    (s : Settings) {a b : ℚ} (h : a ≤ b) :
    applyAdjustments a pats rd s ≤ applyAdjustments b pats rd s :=
  adjustForAnalysisMode_mono s
    (adjustForRatingNaturalness_mono rd
      (adjustForPatternSeverity_mono pats
        (adjustForReviewCount_mono rd h)))

lemma finalScoreOf_ge_ten (f : SuspicionFactors) (pats : List SuspiciousPattern)
    (rd : ReviewDataset) (s : Settings) : (10 : ℚ) ≤ finalScoreOf f pats rd s :=
  le_max_left _ _

lemma finalScoreOf_le_hundred (f : SuspicionFactors) (pats : List SuspiciousPattern)
    (rd : ReviewDataset) (s : Settings) : finalScoreOf f pats rd s ≤ 100 :=
  max_le (by norm_num) (min_le_left _ _)

lemma round_ten : round (10 : ℚ) = 10 := by norm_num [round_eq]

lemma round_hundred : round (100 : ℚ) = 100 := by norm_num [round_eq]

/-! Claim theorems. -/

/-- C1: for every valid input (non-negative suspicion factors, any pattern
list, dataset and settings) the score field of `calculateTrustScore` is an
integer with `10 ≤ score ≤ 100`. -/
theorem trustScore_score_bounded (f : SuspicionFactors) (pats : List SuspiciousPattern)
    (rd : ReviewDataset) (s : Settings)
    (_hp : 0 ≤ f.polarizedRatings) (_hb : 0 ≤ f.burstPosting)
    (_hs : 0 ≤ f.shortReviews) (_hd : 0 ≤ f.duplicatePatterns)
    (_hn : 0 ≤ f.newAccounts) :
    10 ≤ (calculateTrustScore f pats rd s).score ∧
      (calculateTrustScore f pats rd s).score ≤ 100 := by
  rw [trustScore_score_def]
  constructor
  · have h := round_le_round_rat (finalScoreOf_ge_ten f pats rd s)
    rwa [round_ten] at h
  · have h := round_le_round_rat (finalScoreOf_le_hundred f pats rd s)
    rwa [round_hundred] at h

/-- Witness for C1 at an all-zero factor map. -/
theorem trustScore_score_bounded_witness :
    10 ≤ (calculateTrustScore ⟨0, 0, 0, 0, 0⟩ [] ⟨⟨0, 0, 0, 0, 0⟩, 0, []⟩
        ⟨"standard", 5⟩).score ∧
      (calculateTrustScore ⟨0, 0, 0, 0, 0⟩ [] ⟨⟨0, 0, 0, 0, 0⟩, 0, []⟩
        ⟨"standard", 5⟩).score ≤ 100 :=
  trustScore_score_bounded _ _ _ _ le_rfl le_rfl le_rfl le_rfl le_rfl

/-- C2: at the failing input `totalReviews = 3` the review-count adjustment
of the source multiplies the score by 0.9 (the `< 10` branch fires first),
not by 0.8 as the claim requires; the `< 5` branch of the code is
unreachable. -/
theorem reviewCount_adjustment_bug_at_three :
    adjustForReviewCount 100 ⟨⟨0, 0, 0, 0, 0⟩, 3, []⟩ = 90 ∧
      adjustForReviewCount 100 ⟨⟨0, 0, 0, 0, 0⟩, 3, []⟩ ≠ 80 := by
  norm_num [adjustForReviewCount]

/-- C9: the rating naturalness of the exact ideal distribution
`{1:5, 2:5, 3:15, 4:35, 5:40}` out of 100 total reviews is (exactly) 1,
the squared-difference term vanishing. -/
theorem naturalness_at_ideal_distribution :
    calculateRatingNaturalness ⟨5, 5, 15, 35, 40⟩ 100 = 1 := by
  rw [calculateRatingNaturalness, if_neg (by norm_num)]
  have hd : (|(5 : ℚ) / 100 - 0.05| ^ 2 + |(5 : ℚ) / 100 - 0.05| ^ 2
      + |(15 : ℚ) / 100 - 0.15| ^ 2 + |(35 : ℚ) / 100 - 0.35| ^ 2
      + |(40 : ℚ) / 100 - 0.4| ^ 2) = 0 := by norm_num
  simp only [hd]
  norm_num [Real.sqrt_zero]

lemma calculateBaseScore_antitone {f g : SuspicionFactors}
    (h1 : f.polarizedRatings ≤ g.polarizedRatings)
    (h2 : f.burstPosting ≤ g.burstPosting)
    (h3 : f.shortReviews ≤ g.shortReviews)
    (h4 : f.duplicatePatterns ≤ g.duplicatePatterns)
    (h5 : f.newAccounts ≤ g.newAccounts) :
    calculateBaseScore g ≤ calculateBaseScore f := by
  simp only [calculateBaseScore]
  linarith

/-- C5: for fixed patterns, dataset and settings, increasing a single
suspicion factor while holding the other four fixed never increases the
final score of `calculateTrustScore`. -/
theorem trustScore_antitone_in_single_factor (f g : SuspicionFactors)
    (pats : List SuspiciousPattern) (rd : ReviewDataset) (s : Settings)
    (h : (f.polarizedRatings ≤ g.polarizedRatings ∧ f.burstPosting = g.burstPosting
            ∧ f.shortReviews = g.shortReviews ∧ f.duplicatePatterns = g.duplicatePatterns
            ∧ f.newAccounts = g.newAccounts)
        ∨ (f.polarizedRatings = g.polarizedRatings ∧ f.burstPosting ≤ g.burstPosting
            ∧ f.shortReviews = g.shortReviews ∧ f.duplicatePatterns = g.duplicatePatterns
            ∧ f.newAccounts = g.newAccounts)
        ∨ (f.polarizedRatings = g.polarizedRatings ∧ f.burstPosting = g.burstPosting
            ∧ f.shortReviews ≤ g.shortReviews ∧ f.duplicatePatterns = g.duplicatePatterns
            ∧ f.newAccounts = g.newAccounts)
        ∨ (f.polarizedRatings = g.polarizedRatings ∧ f.burstPosting = g.burstPosting
            ∧ f.shortReviews = g.shortReviews ∧ f.duplicatePatterns ≤ g.duplicatePatterns
            ∧ f.newAccounts = g.newAccounts)
        ∨ (f.polarizedRatings = g.polarizedRatings ∧ f.burstPosting = g.burstPosting
            ∧ f.shortReviews = g.shortReviews ∧ f.duplicatePatterns = g.duplicatePatterns
            ∧ f.newAccounts ≤ g.newAccounts)) :
    (calculateTrustScore g pats rd s).score ≤ (calculateTrustScore f pats rd s).score := by
  have hbase : calculateBaseScore g ≤ calculateBaseScore f := by
    rcases h with ⟨h1, h2, h3, h4, h5⟩ | ⟨h1, h2, h3, h4, h5⟩ | ⟨h1, h2, h3, h4, h5⟩
      | ⟨h1, h2, h3, h4, h5⟩ | ⟨h1, h2, h3, h4, h5⟩ <;>
      exact calculateBaseScore_antitone
        (by first | exact h1 | exact le_of_eq h1)
        (by first | exact h2 | exact le_of_eq h2)
        (by first | exact h3 | exact le_of_eq h3)
        (by first | exact h4 | exact le_of_eq h4)
        (by first | exact h5 | exact le_of_eq h5)
  have hadj := applyAdjustments_mono pats rd s hbase
  have hfs : finalScoreOf g pats rd s ≤ finalScoreOf f pats rd s := by
    simp only [finalScoreOf]
    exact max_le_max le_rfl (min_le_min le_rfl hadj)
  rw [trustScore_score_def, trustScore_score_def]
  exact round_le_round_rat hfs

/-- Witness for C5: raising the polarizedRatings factor from 0 to 40. -/
theorem trustScore_antitone_in_single_factor_witness :
    (calculateTrustScore ⟨40, 0, 0, 0, 0⟩ [] ⟨⟨0, 0, 0, 0, 0⟩, 50, []⟩
        ⟨"standard", 5⟩).score ≤
      (calculateTrustScore ⟨0, 0, 0, 0, 0⟩ [] ⟨⟨0, 0, 0, 0, 0⟩, 50, []⟩
        ⟨"standard", 5⟩).score :=
  trustScore_antitone_in_single_factor _ _ _ _ _
    (Or.inl ⟨by norm_num, rfl, rfl, rfl, rfl⟩)

lemma adjustForPatternSeverity_nil (x : ℚ) : adjustForPatternSeverity x [] = x := by
  simp [adjustForPatternSeverity]

lemma adjustForRatingNaturalness_of_lt5 {rd : ReviewDataset}
    (h : rd.totalReviews < 5) (x : ℚ) : adjustForRatingNaturalness x rd = x := by
  rw [adjustForRatingNaturalness, if_pos h]

lemma adjustForAnalysisMode_standard (x : ℚ) {s : Settings}
    (h : s.analysisMode = "standard") : adjustForAnalysisMode x s = x := by
  simp [adjustForAnalysisMode, h]

/-- C3: counterexample to determining the level from the rounded score
field: with a single suspicion factor 35/3 and 3 total reviews the clamped
adjusted score is 79.5, whose rounding gives a score field of 80 while the
level (computed from the unrounded 79.5) is "medium", so
`level = "high" ↔ score ≥ 80` fails. -/
theorem level_vs_rounded_score_counterexample :
    (calculateTrustScore ⟨35/3, 0, 0, 0, 0⟩ [] ⟨⟨0, 0, 0, 0, 0⟩, 3, []⟩
        ⟨"standard", 5⟩).score = 80 ∧
      (calculateTrustScore ⟨35/3, 0, 0, 0, 0⟩ [] ⟨⟨0, 0, 0, 0, 0⟩, 3, []⟩
        ⟨"standard", 5⟩).level = "medium" ∧
      ¬((calculateTrustScore ⟨35/3, 0, 0, 0, 0⟩ [] ⟨⟨0, 0, 0, 0, 0⟩, 3, []⟩
          ⟨"standard", 5⟩).level = "high" ↔
        80 ≤ (calculateTrustScore ⟨35/3, 0, 0, 0, 0⟩ [] ⟨⟨0, 0, 0, 0, 0⟩, 3, []⟩
          ⟨"standard", 5⟩).score) := by
  have hbase : calculateBaseScore ⟨35/3, 0, 0, 0, 0⟩ = 265/3 := by
    norm_num [calculateBaseScore]
  have harc : adjustForReviewCount (265/3) ⟨⟨0, 0, 0, 0, 0⟩, 3, []⟩ = 159/2 := by
    norm_num [adjustForReviewCount]
  have hfs : finalScoreOf ⟨35/3, 0, 0, 0, 0⟩ [] ⟨⟨0, 0, 0, 0, 0⟩, 3, []⟩
      ⟨"standard", 5⟩ = 159/2 := by
    rw [finalScoreOf, applyAdjustments, hbase, harc, adjustForPatternSeverity_nil,
      adjustForRatingNaturalness_of_lt5 (by norm_num),
      adjustForAnalysisMode_standard _ rfl]
    norm_num
  have hscore : (calculateTrustScore ⟨35/3, 0, 0, 0, 0⟩ [] ⟨⟨0, 0, 0, 0, 0⟩, 3, []⟩
      ⟨"standard", 5⟩).score = 80 := by
    rw [trustScore_score_def, hfs]
    norm_num [round_eq]
  have hlevel : (calculateTrustScore ⟨35/3, 0, 0, 0, 0⟩ [] ⟨⟨0, 0, 0, 0, 0⟩, 3, []⟩
      ⟨"standard", 5⟩).level = "medium" := by
    rw [trustScore_level_def, hfs, determineTrustLevel,
      if_neg (by norm_num), if_pos (by norm_num)]
  refine ⟨hscore, hlevel, fun hiff => ?_⟩
  rw [hscore, hlevel] at hiff
  exact absurd (hiff.mpr (by norm_num)) (by decide)

/-- C3 amended: the level field is derived from the clamped score before
rounding: it is "high" exactly when that unrounded final score is at least
80, "medium" when it is in [60, 80), "low" when in [40, 60), "very_low"
when below 40. -/
theorem trustLevel_matches_unrounded_final_score (f : SuspicionFactors)
    (pats : List SuspiciousPattern) (rd : ReviewDataset) (s : Settings) :
    ((calculateTrustScore f pats rd s).level
        = determineTrustLevel (finalScoreOf f pats rd s)) ∧
    ∀ q : ℚ,
      (determineTrustLevel q = "high" ↔ 80 ≤ q) ∧
      (determineTrustLevel q = "medium" ↔ 60 ≤ q ∧ q < 80) ∧
      (determineTrustLevel q = "low" ↔ 40 ≤ q ∧ q < 60) ∧
      (determineTrustLevel q = "very_low" ↔ q < 40) := by
  refine ⟨rfl, fun q => ?_⟩
  simp only [determineTrustLevel]
  split_ifs with h1 h2 h3 <;>
    refine ⟨?_, ?_, ?_, ?_⟩ <;>
    simp_all <;>
    first
      | linarith
      | (intros; linarith)

/-- C4: counterexample to the claim for arbitrary (possibly non-empty)
`recentReviews`: a dataset with `totalReviews = 0` but six recent reviews
whose dateText contains a recent keyword makes the burst-posting heuristic
fire (score 80), so not all heuristics report not-detected and the
suspicion factors are not all zero. -/
theorem zero_totalReviews_burst_detected_counterexample :
    (⟨⟨0, 0, 0, 0, 0⟩, 0, List.replicate 6 ⟨"", 0, "3 days ago", false⟩⟩ :
        ReviewDataset).totalReviews = 0 ∧
      detectBurstPosting
          ⟨⟨0, 0, 0, 0, 0⟩, 0, List.replicate 6 ⟨"", 0, "3 days ago", false⟩⟩
        = some (80, ⟨"burst_posting", "medium"⟩) ∧
      (detectAllPatterns
          ⟨⟨0, 0, 0, 0, 0⟩, 0, List.replicate 6 ⟨"", 0, "3 days ago", false⟩⟩
          ⟨"standard", 5⟩).suspicionFactors.burstPosting = 80 ∧
      (detectAllPatterns
          ⟨⟨0, 0, 0, 0, 0⟩, 0, List.replicate 6 ⟨"", 0, "3 days ago", false⟩⟩
          ⟨"standard", 5⟩).suspiciousPatterns ≠ [] := by
  have hburst : detectBurstPosting
      ⟨⟨0, 0, 0, 0, 0⟩, 0, List.replicate 6 ⟨"", 0, "3 days ago", false⟩⟩
      = some (80, ⟨"burst_posting", "medium"⟩) := by
    have hcount : ((⟨⟨0, 0, 0, 0, 0⟩, 0,
        List.replicate 6 ⟨"", 0, "3 days ago", false⟩⟩ :
          ReviewDataset).recentReviews.filter
        (fun r => recentDateKeywords.any (fun kw => jsIncludes r.dateText kw))).length
        = 6 := by decide
    rw [detectBurstPosting, if_neg (by decide), hcount]
    norm_num
  have hpol : detectPolarizedRatings
      ⟨⟨0, 0, 0, 0, 0⟩, 0, List.replicate 6 ⟨"", 0, "3 days ago", false⟩⟩
      ⟨"standard", 5⟩ = none := by
    rw [detectPolarizedRatings, if_pos]
    norm_num [minReviewsOf]
  have hshort : detectShortReviews
      ⟨⟨0, 0, 0, 0, 0⟩, 0, List.replicate 6 ⟨"", 0, "3 days ago", false⟩⟩ = none := by
    have hcnt : ((⟨⟨0, 0, 0, 0, 0⟩, 0,
        List.replicate 6 ⟨"", 0, "3 days ago", false⟩⟩ :
          ReviewDataset).recentReviews.filter
        (fun r => decide (0 < r.textLength ∧ r.textLength < 10))).length = 0 := by decide
    rw [detectShortReviews, if_neg (by decide), hcnt]
    norm_num
  have hdup : detectDuplicatePatterns
      ⟨⟨0, 0, 0, 0, 0⟩, 0, List.replicate 6 ⟨"", 0, "3 days ago", false⟩⟩ = none := by
    have htexts : (((⟨⟨0, 0, 0, 0, 0⟩, 0,
        List.replicate 6 ⟨"", 0, "3 days ago", false⟩⟩ :
          ReviewDataset).recentReviews.map (fun r => r.text)).filter
        (fun t => !(t = "") && decide (5 < t.length))).length = 0 := by decide
    rw [detectDuplicatePatterns, if_neg (by decide), if_pos]
    rw [htexts]
    norm_num
  have hnew : detectNewAccounts
      ⟨⟨0, 0, 0, 0, 0⟩, 0, List.replicate 6 ⟨"", 0, "3 days ago", false⟩⟩ = none := by
    have hcnt : ((⟨⟨0, 0, 0, 0, 0⟩, 0,
        List.replicate 6 ⟨"", 0, "3 days ago", false⟩⟩ :
          ReviewDataset).recentReviews.filter
        (fun r => !r.hasPhotos && decide (0 < r.textLength ∧ r.textLength < 20))).length
        = 0 := by decide
    rw [detectNewAccounts, if_neg (by decide), hcnt]
    norm_num
  have hall : detectAllPatterns
      ⟨⟨0, 0, 0, 0, 0⟩, 0, List.replicate 6 ⟨"", 0, "3 days ago", false⟩⟩
      ⟨"standard", 5⟩
      = ⟨⟨0, 80, 0, 0, 0⟩, [⟨"burst_posting", "medium"⟩]⟩ := by
    unfold detectAllPatterns
    rw [hpol, hburst, hshort, hdup, hnew]
    rfl
  exact ⟨rfl, hburst, by rw [hall], by rw [hall]; simp⟩

/-- C4 amended: a dataset with `totalReviews = 0` and an empty
`recentReviews` yields naturalness 0, all five heuristics not detected, and
`detectAllPatterns` returns all-zero suspicion factors with an empty
pattern list (and, the embedding being total, no operation throws). -/
theorem empty_dataset_all_heuristics_clear (rd : ReviewDataset) (s : Settings)
    (h0 : rd.totalReviews = 0) (hr : rd.recentReviews = []) :
    calculateRatingNaturalness rd.ratings rd.totalReviews = 0 ∧
      detectPolarizedRatings rd s = none ∧
      detectBurstPosting rd = none ∧
      detectShortReviews rd = none ∧
      detectDuplicatePatterns rd = none ∧
      detectNewAccounts rd = none ∧
      detectAllPatterns rd s = ⟨⟨0, 0, 0, 0, 0⟩, []⟩ := by
  have hpol : detectPolarizedRatings rd s = none := by
    rw [detectPolarizedRatings]
    split_ifs <;> rfl
  have hburst : detectBurstPosting rd = none := by
    rw [detectBurstPosting, if_pos hr]
  have hshort : detectShortReviews rd = none := by
    rw [detectShortReviews, if_pos hr]
  have hdup : detectDuplicatePatterns rd = none := by
    rw [detectDuplicatePatterns, if_pos (by rw [hr]; norm_num)]
  have hnew : detectNewAccounts rd = none := by
    rw [detectNewAccounts, if_pos hr]
  refine ⟨?_, hpol, hburst, hshort, hdup, hnew, ?_⟩
  · rw [calculateRatingNaturalness, if_pos h0]
  · simp [detectAllPatterns, hpol, hburst, hshort, hdup, hnew]

/-- Witness for the amended C4 at the concrete fully empty dataset. -/
theorem empty_dataset_all_heuristics_clear_witness :
    calculateRatingNaturalness (⟨0, 0, 0, 0, 0⟩ : Ratings) (0 : ℚ) = 0 ∧
      detectPolarizedRatings ⟨⟨0, 0, 0, 0, 0⟩, 0, []⟩ ⟨"standard", 5⟩ = none ∧
      detectBurstPosting ⟨⟨0, 0, 0, 0, 0⟩, 0, []⟩ = none ∧
      detectShortReviews ⟨⟨0, 0, 0, 0, 0⟩, 0, []⟩ = none ∧
      detectDuplicatePatterns ⟨⟨0, 0, 0, 0, 0⟩, 0, []⟩ = none ∧
      detectNewAccounts ⟨⟨0, 0, 0, 0, 0⟩, 0, []⟩ = none ∧
      detectAllPatterns ⟨⟨0, 0, 0, 0, 0⟩, 0, []⟩ ⟨"standard", 5⟩
        = ⟨⟨0, 0, 0, 0, 0⟩, []⟩ :=
  empty_dataset_all_heuristics_clear ⟨⟨0, 0, 0, 0, 0⟩, 0, []⟩ ⟨"standard", 5⟩ rfl rfl

lemma polarizedThreshold_pos (mode : String) : 0 < polarizedThreshold mode := by
  rw [polarizedThreshold]
  split_ifs <;> norm_num

lemma detectPolarizedRatings_factor_bounds (rd : ReviewDataset) (s : Settings) :
    0 ≤ ((detectPolarizedRatings rd s).map Prod.fst).getD 0 ∧
      ((detectPolarizedRatings rd s).map Prod.fst).getD 0 ≤ 90 := by
  simp only [detectPolarizedRatings]
  split_ifs with h1 h2 h3
  · simp
  · simp
  · simp only [Option.map_some', Option.getD_some]
    have hth := polarizedThreshold_pos s.analysisMode
    obtain ⟨hgt, -⟩ := h3
    exact ⟨le_min (by nlinarith) (by norm_num), min_le_right _ _⟩
  · simp

lemma detectBurstPosting_factor_bounds (rd : ReviewDataset) :
    0 ≤ ((detectBurstPosting rd).map Prod.fst).getD 0 ∧
      ((detectBurstPosting rd).map Prod.fst).getD 0 ≤ 80 := by
  simp only [detectBurstPosting]
  split_ifs with h1 h2 h3
  · simp
  · simp only [Option.map_some', Option.getD_some]
    exact ⟨le_min (by nlinarith) (by norm_num), min_le_right _ _⟩
  · simp
  · simp

lemma detectShortReviews_factor_bounds (rd : ReviewDataset) :
    0 ≤ ((detectShortReviews rd).map Prod.fst).getD 0 ∧
      ((detectShortReviews rd).map Prod.fst).getD 0 ≤ 60 := by
  simp only [detectShortReviews]
  split_ifs with h1 h2
  · simp
  · simp only [Option.map_some', Option.getD_some]
    exact ⟨le_min (by nlinarith) (by norm_num), min_le_right _ _⟩
  · simp

lemma detectDuplicatePatterns_factor_bounds (rd : ReviewDataset) :
    0 ≤ ((detectDuplicatePatterns rd).map Prod.fst).getD 0 ∧
      ((detectDuplicatePatterns rd).map Prod.fst).getD 0 ≤ 100 := by
  simp only [detectDuplicatePatterns]
  split_ifs with h1 h2 h3
  · simp
  · simp
  · simp only [Option.map_some', Option.getD_some]
    refine ⟨le_min ?_ (by norm_num), min_le_right _ _⟩
    positivity
  · simp

lemma detectNewAccounts_factor_bounds (rd : ReviewDataset) :
    0 ≤ ((detectNewAccounts rd).map Prod.fst).getD 0 ∧
      ((detectNewAccounts rd).map Prod.fst).getD 0 ≤ 50 := by
  simp only [detectNewAccounts]
  split_ifs with h1 h2
  · simp
  · simp only [Option.map_some', Option.getD_some]
    exact ⟨le_min (by nlinarith) (by norm_num), min_le_right _ _⟩
  · simp

/-- C6: every suspicion factor produced by `detectAllPatterns` is
non-negative and bounded by its configured per-factor maximum:
polarizedRatings 90, burstPosting 80, shortReviews 60, duplicatePatterns
100, newAccounts 50. -/
theorem suspicionFactors_nonneg_and_capped (rd : ReviewDataset) (s : Settings)
    (_h1 : 0 ≤ rd.ratings.r1) (_h2 : 0 ≤ rd.ratings.r2) (_h3 : 0 ≤ rd.ratings.r3)
    (_h4 : 0 ≤ rd.ratings.r4) (_h5 : 0 ≤ rd.ratings.r5) :
    (0 ≤ (detectAllPatterns rd s).suspicionFactors.polarizedRatings ∧
        (detectAllPatterns rd s).suspicionFactors.polarizedRatings ≤ 90) ∧
      (0 ≤ (detectAllPatterns rd s).suspicionFactors.burstPosting ∧
        (detectAllPatterns rd s).suspicionFactors.burstPosting ≤ 80) ∧
      (0 ≤ (detectAllPatterns rd s).suspicionFactors.shortReviews ∧
        (detectAllPatterns rd s).suspicionFactors.shortReviews ≤ 60) ∧
      (0 ≤ (detectAllPatterns rd s).suspicionFactors.duplicatePatterns ∧
        (detectAllPatterns rd s).suspicionFactors.duplicatePatterns ≤ 100) ∧
      (0 ≤ (detectAllPatterns rd s).suspicionFactors.newAccounts ∧
        (detectAllPatterns rd s).suspicionFactors.newAccounts ≤ 50) := by
  simp only [detectAllPatterns]
  exact ⟨detectPolarizedRatings_factor_bounds rd s,
    detectBurstPosting_factor_bounds rd,
    detectShortReviews_factor_bounds rd,
    detectDuplicatePatterns_factor_bounds rd,
    detectNewAccounts_factor_bounds rd⟩

/-- Witness for C6 at the concrete empty dataset. -/
theorem suspicionFactors_nonneg_and_capped_witness :
    (0 ≤ (detectAllPatterns ⟨⟨0, 0, 0, 0, 0⟩, 0, []⟩
          ⟨"standard", 5⟩).suspicionFactors.polarizedRatings ∧
        (detectAllPatterns ⟨⟨0, 0, 0, 0, 0⟩, 0, []⟩
          ⟨"standard", 5⟩).suspicionFactors.polarizedRatings ≤ 90) ∧
      (0 ≤ (detectAllPatterns ⟨⟨0, 0, 0, 0, 0⟩, 0, []⟩
          ⟨"standard", 5⟩).suspicionFactors.burstPosting ∧
        (detectAllPatterns ⟨⟨0, 0, 0, 0, 0⟩, 0, []⟩
          ⟨"standard", 5⟩).suspicionFactors.burstPosting ≤ 80) ∧
      (0 ≤ (detectAllPatterns ⟨⟨0, 0, 0, 0, 0⟩, 0, []⟩
          ⟨"standard", 5⟩).suspicionFactors.shortReviews ∧
        (detectAllPatterns ⟨⟨0, 0, 0, 0, 0⟩, 0, []⟩
          ⟨"standard", 5⟩).suspicionFactors.shortReviews ≤ 60) ∧
      (0 ≤ (detectAllPatterns ⟨⟨0, 0, 0, 0, 0⟩, 0, []⟩
          ⟨"standard", 5⟩).suspicionFactors.duplicatePatterns ∧
        (detectAllPatterns ⟨⟨0, 0, 0, 0, 0⟩, 0, []⟩
          ⟨"standard", 5⟩).suspicionFactors.duplicatePatterns ≤ 100) ∧
      (0 ≤ (detectAllPatterns ⟨⟨0, 0, 0, 0, 0⟩, 0, []⟩
          ⟨"standard", 5⟩).suspicionFactors.newAccounts ∧
        (detectAllPatterns ⟨⟨0, 0, 0, 0, 0⟩, 0, []⟩
          ⟨"standard", 5⟩).suspicionFactors.newAccounts ≤ 50) :=
  suspicionFactors_nonneg_and_capped ⟨⟨0, 0, 0, 0, 0⟩, 0, []⟩ ⟨"standard", 5⟩
    le_rfl le_rfl le_rfl le_rfl le_rfl

/-- C7: `detectAllPatterns` sets each suspicion-factor entry to the
corresponding detector's score when detected and 0 otherwise, and collects
exactly the pattern records of the detected heuristics, in the fixed
evaluation order polarized, burst, short, duplicate, newAccounts. -/
theorem detectAllPatterns_assembly (rd : ReviewDataset) (s : Settings) :
    (∀ q p, detectPolarizedRatings rd s = some (q, p) →
        (detectAllPatterns rd s).suspicionFactors.polarizedRatings = q) ∧
      (detectPolarizedRatings rd s = none →
        (detectAllPatterns rd s).suspicionFactors.polarizedRatings = 0) ∧
      (∀ q p, detectBurstPosting rd = some (q, p) →
        (detectAllPatterns rd s).suspicionFactors.burstPosting = q) ∧
      (detectBurstPosting rd = none →
        (detectAllPatterns rd s).suspicionFactors.burstPosting = 0) ∧
      (∀ q p, detectShortReviews rd = some (q, p) →
        (detectAllPatterns rd s).suspicionFactors.shortReviews = q) ∧
      (detectShortReviews rd = none →
        (detectAllPatterns rd s).suspicionFactors.shortReviews = 0) ∧
      (∀ q p, detectDuplicatePatterns rd = some (q, p) →
        (detectAllPatterns rd s).suspicionFactors.duplicatePatterns = q) ∧
      (detectDuplicatePatterns rd = none →
        (detectAllPatterns rd s).suspicionFactors.duplicatePatterns = 0) ∧
      (∀ q p, detectNewAccounts rd = some (q, p) →
        (detectAllPatterns rd s).suspicionFactors.newAccounts = q) ∧
      (detectNewAccounts rd = none →
        (detectAllPatterns rd s).suspicionFactors.newAccounts = 0) ∧
      (detectAllPatterns rd s).suspiciousPatterns =
        [detectPolarizedRatings rd s, detectBurstPosting rd, detectShortReviews rd,
          detectDuplicatePatterns rd, detectNewAccounts rd].filterMap
          (fun o => o.map Prod.snd) := by
  refine ⟨?_, ?_, ?_, ?_, ?_, ?_, ?_, ?_, ?_, ?_, rfl⟩ <;>
    first
      | (intro q p h; simp [detectAllPatterns, h])
      | (intro h; simp [detectAllPatterns, h])

/-- Witness for C7: at the empty dataset the shortReviews entry is 0 since
the short-review detector reports not detected. -/
theorem detectAllPatterns_assembly_witness :
    (detectAllPatterns ⟨⟨0, 0, 0, 0, 0⟩, 0, []⟩
        ⟨"standard", 5⟩).suspicionFactors.shortReviews = 0 :=
  (detectAllPatterns_assembly ⟨⟨0, 0, 0, 0, 0⟩, 0, []⟩ ⟨"standard", 5⟩).2.2.2.2.2.1
    (by rw [detectShortReviews, if_pos rfl])

lemma wsSplitF_ne_nil (b : Bool) (l : List Char) : wsSplitF b l ≠ [] := by
  induction l generalizing b with
  | nil => simp [wsSplitF]
  | cons c cs ih =>
    rw [wsSplitF]
    split_ifs
    · exact ih true
    · simp
    · rcases hw : wsSplitF false cs with - | ⟨t, ts⟩ <;> simp [hw]

lemma jsTokens_toFinset_nonempty (a : String) : (jsTokens a).toFinset.Nonempty := by
  have h : jsTokens a ≠ [] := by
    rw [jsTokens, wsSplit]
    simp [wsSplitF_ne_nil]
  obtain ⟨x, xs, hx⟩ := List.exists_cons_of_ne_nil h
  exact ⟨x, by simp [hx]⟩

lemma calculateTextSimilarity_nonneg (a b : String) :
    0 ≤ calculateTextSimilarity a b := by
  simp only [calculateTextSimilarity]
  split_ifs
  · exact le_rfl
  · positivity
  · exact le_rfl

lemma calculateTextSimilarity_le_one (a b : String) :
    calculateTextSimilarity a b ≤ 1 := by
  simp only [calculateTextSimilarity]
  split_ifs with h1 h2
  · norm_num
  · rw [div_le_one (by exact_mod_cast h2)]
    exact_mod_cast Finset.card_le_card Finset.inter_subset_union
  · norm_num

/-- C8: the Jaccard text similarity lies in [0, 1] for non-empty strings,
equals 1 on identical non-empty strings, and equals 0 whenever the two
lower-cased whitespace-token sets are disjoint. -/
theorem textSimilarity_jaccard_properties :
    (∀ a b : String, a ≠ "" → b ≠ "" →
        0 ≤ calculateTextSimilarity a b ∧ calculateTextSimilarity a b ≤ 1) ∧
      (∀ a : String, a ≠ "" → calculateTextSimilarity a a = 1) ∧
      (∀ a b : String, (jsTokens a).toFinset ∩ (jsTokens b).toFinset = ∅ →
        calculateTextSimilarity a b = 0) := by
  refine ⟨fun a b _ _ => ⟨calculateTextSimilarity_nonneg a b,
    calculateTextSimilarity_le_one a b⟩, fun a ha => ?_, fun a b hdisj => ?_⟩
  · simp only [calculateTextSimilarity]
    rw [if_neg (by simp [ha])]
    simp only [Finset.inter_self, Finset.union_self]
    have hpos : 0 < (jsTokens a).toFinset.card :=
      Finset.card_pos.mpr (jsTokens_toFinset_nonempty a)
    rw [if_pos hpos]
    exact div_self (by exact_mod_cast hpos.ne')
  · simp only [calculateTextSimilarity]
    split_ifs with h1 h2
    · rfl
    · rw [hdisj]
      simp
    · rfl

/-- Witness for C8 at concrete strings: overlapping, identical and disjoint
token sets. -/
theorem textSimilarity_jaccard_properties_witness :
    (0 ≤ calculateTextSimilarity "Hello world" "hello there" ∧
        calculateTextSimilarity "Hello world" "hello there" ≤ 1) ∧
      calculateTextSimilarity "abc" "abc" = 1 ∧
      calculateTextSimilarity "ab" "cd" = 0 :=
  ⟨textSimilarity_jaccard_properties.1 "Hello world" "hello there"
      (by decide) (by decide),
    textSimilarity_jaccard_properties.2.1 "abc" (by decide),
    textSimilarity_jaccard_properties.2.2 "ab" "cd" (by decide)⟩

/-- C10: the similarity is total: empty (falsy) inputs short-circuit to 0
before tokenizing, and the division is guarded, so the result is always a
well-defined number in [0, 1]. -/
theorem textSimilarity_total_in_unit_interval (t1 t2 : String) :
    (t1 = "" ∨ t2 = "" → calculateTextSimilarity t1 t2 = 0) ∧
      0 ≤ calculateTextSimilarity t1 t2 ∧ calculateTextSimilarity t1 t2 ≤ 1 := by
  refine ⟨fun h => ?_, calculateTextSimilarity_nonneg t1 t2,
    calculateTextSimilarity_le_one t1 t2⟩
  rw [calculateTextSimilarity, if_pos]
  rcases h with h | h <;> simp [h]

/-- Witness for C10: an empty first argument gives 0; bounds hold at
concrete non-empty strings. -/
theorem textSimilarity_total_in_unit_interval_witness :
    calculateTextSimilarity "" "anything" = 0 ∧
      0 ≤ calculateTextSimilarity "a" "b" ∧
      calculateTextSimilarity "a" "b" ≤ 1 :=
  ⟨(textSimilarity_total_in_unit_interval "" "anything").1 (Or.inl rfl),
    (textSimilarity_total_in_unit_interval "a" "b").2⟩

end MapsReview
